import Mathlib

/-!
Shallow embedding of `pyrobolearn/policies/policy.py` (class `Policy`).

Python values flowing through the policy are modelled by the inductive
type `PRL.PyObj`; numpy arrays and torch tensors carry a list of integers
as their contents.  Exceptions are modelled by `Except PyErr`.  External
collaborators (`State`, `Action`, `Model`, `Approximator`, processors) are
modelled as records of their observable behaviour; the policy's calls to
them are recorded in an event trace so that call-counting properties can
be stated.
-/

namespace PRL

/-- Python exceptions that the code under study can raise. -/
inductive PyErr where
  | typeError (msg : String)
  | valueError (msg : String)
  | attributeError (msg : String)
  | zeroDivisionError
  | nameError (msg : String)
deriving DecidableEq, Repr

/-- An external `State` object; the policy only reads its `merged_data`
attribute, a Python list of numpy arrays. -/
structure StateObj where
  merged_data : List (List Int)
deriving DecidableEq, Repr

/-- One sub-action of an `Action` object: `is_discrete()` flag and the two
mutable slots written by the policy (`action.data` and `action.torch_data`). -/
structure SubAction where
  discrete : Bool
  dataSlot : Option (List Int) := none
  torchSlot : Option (List Int) := none
deriving DecidableEq, Repr

/-- An external `Action` object; iterating it yields its sub-actions. -/
structure ActionObj where
  subs : List SubAction
deriving DecidableEq, Repr

/-- Universe of Python values handled by `Policy`: `None`, `State` and
`Action` instances, numpy arrays, torch tensors, Python lists, ints, and
a catch-all for any other object. -/
inductive PyObj where
  | pnone
  | pstate (s : StateObj)
  | paction (a : ActionObj)
  | parr (xs : List Int)
  | ptensor (xs : List Int)
  | plist (xs : List PyObj)
  | pint (n : Int)
  | pother (tag : Nat)

/-- An external processor: callable on a value, with a `reset()` method
whose invocations we count. -/
structure Processor where
  run : PyObj → PyObj
  resets : Nat := 0

/-- `processor.reset()` on an external processor object. -/
def Processor.resetP (pr : Processor) : Processor :=
  { pr with resets := pr.resets + 1 }

/-- Events recording the policy's calls into its collaborators. -/
inductive Event where
  | preprocRun (i : Nat) (input : PyObj)
  | predictCall (input : PyObj)
  | postprocRun (i : Nat) (input : PyObj)
  | setActionData (v : PyObj)
  | actionsCall

/-- An external learning `Model` object (instance of `Model`). -/
structure ModelObj where
  predictFn : PyObj → Bool → PyObj
  is_recurrentR : Bool
  parametersR : PyObj
  named_parametersR : PyObj
  list_parametersR : PyObj
  hyperparametersR : PyObj
  named_hyperparametersR : PyObj
  list_hyperparametersR : PyObj

/-- An external `Approximator` object. -/
structure ApproxObj where
  inputs : Option StateObj
  outputs : Option ActionObj
  inner : Option ModelObj
  predictFn : PyObj → Bool → Bool → Bool → PyObj
  is_recurrentR : Bool
  parametersR : PyObj
  named_parametersR : PyObj
  list_parametersR : PyObj
  hyperparametersR : PyObj
  named_hyperparametersR : PyObj
  list_hyperparametersR : PyObj

/-- What `self._model` can hold after the `model` setter ran: `None`, an
`Approximator`, a raw `Model` (only reachable by direct field access, kept
so that `_predict` translates both of its branches), or any other object
(the setter stores such objects unchanged since the `raise` is commented
out in the source). -/
inductive InnerModel where
  | approx (a : ApproxObj)
  | rawmodel (m : ModelObj)
  | otherObj (tag : Nat)

/-- The `Policy` object: fields in the order `__init__` assigns them. -/
structure Policy where
  states : Option StateObj
  actions : ActionObj
  model : Option InnerModel
  train_mode : Bool
  rate : Int
  cnt : Int
  action_data : PyObj
  preprocessors : List Processor
  postprocessors : List Processor

/-- `np.argmax` / `torch.argmax(·, dim=0)`: index of the first maximal
element (0 on the empty list, where the real functions raise). -/
def argmaxIdx : List Int → Nat
  | [] => 0
  | x :: xs =>
    let j := argmaxIdx xs
    match xs.get? j with
    | none => 0
    | some y => if x < y then j + 1 else 0

/-- `Policy.__convert_to_numpy`: convert a torch tensor to a numpy array
when `to_numpy` holds; everything else is returned unchanged. -/
def convertToNumpy (x : PyObj) (to_numpy : Bool) : PyObj :=
  match to_numpy, x with
  | true, .ptensor xs => .parr xs
  | _, x => x

/-- `if not isinstance(self.action_data, list): self.action_data = [self.action_data]`. -/
def listify : PyObj → List PyObj
  | .plist xs => xs
  | v => [v]

/-- `if isinstance(self.action_data, list) and len(self.action_data) == 1:
self.action_data = self.action_data[0]`. -/
def unlistify : List PyObj → PyObj
  | [x] => x
  | xs => .plist xs

/-- One iteration of the dispatch loop in `Policy.act` (lines 451-485):
given a sub-action and its zipped data, return the updated sub-action and
the (possibly replaced) entry of `self.action_data`, or the raised error. -/
def dispatchOne (return_logits to_numpy : Bool) (a : SubAction) (d : PyObj) :
    Except PyErr (SubAction × PyObj) :=
  if a.discrete then
    match d with
    | .parr xs =>
      if xs = [] then .error (.valueError "attempt to get argmax of an empty sequence")
      else
        .ok ({ a with dataSlot := some [(argmaxIdx xs : Int)] },
             if return_logits then .parr xs else .parr [(argmaxIdx xs : Int)])
    | .ptensor xs =>
      if xs = [] then .error (.valueError "cannot perform reduction over an empty tensor")
      else
        .ok ({ a with torchSlot := some [(argmaxIdx xs : Int)] },
             if return_logits then convertToNumpy (.ptensor xs) to_numpy
             else convertToNumpy (.ptensor [(argmaxIdx xs : Int)]) to_numpy)
    | _ => .error (.typeError "Expecting the data action to be a numpy array or torch.Tensor")
  else
    match d with
    | .parr xs => .ok ({ a with dataSlot := some xs }, .parr xs)
    | .ptensor xs => .ok ({ a with torchSlot := some xs }, convertToNumpy (.ptensor xs) to_numpy)
    | _ => .error (.typeError "Expecting data to be a numpy array or torch.Tensor")

/-- The dispatch loop of `Policy.act` over `zip(self.actions, self.action_data)`.
Returns the list of (partially) updated sub-actions, the (partially)
updated `action_data` list, and the error that interrupted the loop, if
any — later elements are left as they were, as in Python. -/
def dispatchLoop (return_logits to_numpy : Bool) :
    List SubAction → List PyObj → List SubAction × List PyObj × Option PyErr
  | [], ds => ([], ds, none)
  | subs, [] => (subs, [], none)
  | a :: subs, d :: ds =>
    match dispatchOne return_logits to_numpy a d with
    | .error e => (a :: subs, d :: ds, some e)
    | .ok (a2, d2) =>
      let rest := dispatchLoop return_logits to_numpy subs ds
      (a2 :: rest.1, d2 :: rest.2.1, rest.2.2)

/-- Run a chain of processors left to right (`for processor in ...:
state = processor(state)`), recording one event per invocation with the
value it was applied to. -/
def applyProcessorsAux (mk : Nat → PyObj → Event) :
    Nat → List Processor → PyObj → PyObj × List Event
  | _, [], v => (v, [])
  | i, pr :: ps, v =>
    let rest := applyProcessorsAux mk (i + 1) ps (pr.run v)
    (rest.1, mk i v :: rest.2)

def applyProcessors (mk : Nat → PyObj → Event) (ps : List Processor) (v : PyObj) :
    PyObj × List Event :=
  applyProcessorsAux mk 0 ps v

/-- Lines 418-426 of `Policy.act`: when the argument is `None` take
`self.states`; when the result is a `State` instance take its
`merged_data`, unwrapped when that list has exactly one element. -/
def resolvedState (p : Policy) (state : PyObj) : PyObj :=
  let st :=
    match state with
    | .pnone =>
      match p.states with
      | none => PyObj.pnone
      | some s => PyObj.pstate s
    | v => v
  match st with
  | .pstate s =>
    match s.merged_data with
    | [x] => PyObj.parr x
    | xs => PyObj.plist (xs.map PyObj.parr)
  | v => v

/-- The state after the preprocessor chain, i.e. the value `Policy.act`
hands to `self._predict`. -/
def processedState (p : Policy) (state : PyObj) : PyObj :=
  (applyProcessors Event.preprocRun p.preprocessors (resolvedState p state)).1

/-- `Policy._predict` as called from `act` (with `to_numpy=False,
return_logits=True, set_output_data=False`): dispatch to the inner
approximator's or model's `predict`; `None` (and an object with no
`predict` attribute) raises `AttributeError`. -/
def predictE (m : Option InnerModel) (s : PyObj) : Except PyErr PyObj :=
  match m with
  | none => .error (.attributeError "NoneType object has no attribute predict")
  | some (.approx a) => .ok (a.predictFn s false true false)
  | some (.rawmodel mo) => .ok (mo.predictFn s false)
  | some (.otherObj _) => .error (.attributeError "object has no attribute predict")

/-- The events emitted by a prediction tick of `act` up to (and including)
the assignment of the post-processed prediction to `self.action_data`. -/
def actEvents (p : Policy) (state : PyObj) (pred : PyObj) : List Event :=
  (applyProcessors Event.preprocRun p.preprocessors (resolvedState p state)).2
    ++ [Event.predictCall (processedState p state)]
    ++ (applyProcessors Event.postprocRun p.postprocessors pred).2
    ++ [Event.setActionData (applyProcessors Event.postprocRun p.postprocessors pred).1]

/-- The body of `Policy.act` on a prediction tick (`cnt % rate == 0`),
lines 418-499: resolve the state, run the preprocessors, predict, run the
postprocessors, dispatch onto the actions, optionally execute the actions,
and increment the counter.  Raised exceptions leave the policy with the
mutations performed so far, as in Python. -/
def actPredictBranch (p : Policy) (state : PyObj) (to_numpy return_logits apply_action : Bool) :
    Policy × List Event × Except PyErr PyObj :=
  match predictE p.model (processedState p state) with
  | .error e =>
    (p, (applyProcessors Event.preprocRun p.preprocessors (resolvedState p state)).2, .error e)
  | .ok pred =>
    match dispatchLoop return_logits to_numpy p.actions.subs
        (listify (applyProcessors Event.postprocRun p.postprocessors pred).1) with
    | (subs2, ads2, some e) =>
      ({ p with actions := ⟨subs2⟩, action_data := .plist ads2 },
       actEvents p state pred, .error e)
    | (subs2, ads2, none) =>
      ({ p with actions := ⟨subs2⟩, action_data := unlistify ads2, cnt := p.cnt + 1 },
       actEvents p state pred ++ (if apply_action then [Event.actionsCall] else []),
       .ok (unlistify ads2))

/-- `Policy.act`.  The `deterministic` argument is unused by the source.
`cnt % rate` raises `ZeroDivisionError` when `rate = 0`; otherwise the
test `cnt % rate == 0` agrees with `Int.fmod` (Python's floor modulus).
On a non-prediction tick only the action execution and the counter
increment happen. -/
def Policy.act (p : Policy) (state : PyObj)
    (deterministic to_numpy return_logits apply_action : Bool) :
    Policy × List Event × Except PyErr PyObj :=
  if p.rate = 0 then (p, [], .error .zeroDivisionError)
  else if Int.fmod p.cnt p.rate = 0 then
    actPredictBranch p state to_numpy return_logits apply_action
  else
    ({ p with cnt := p.cnt + 1 },
     (if apply_action then [Event.actionsCall] else []),
     .ok p.action_data)

/-- `Policy.__call__`: its body is `return self.act(*args, **kwargs)`, but
the signature declares no `args`/`kwargs`, so every invocation raises
`NameError` before anything else happens. -/
def Policy.call (p : Policy) (state : PyObj)
    (deterministic to_numpy return_logits apply_action : Bool) :
    Policy × List Event × Except PyErr PyObj :=
  (p, [], .error (.nameError "name args is not defined"))

/-- The `states` property getter, as a `PyObj` (it returns `None` or the
stored `State` instance). -/
def Policy.statesObj (p : Policy) : PyObj :=
  match p.states with
  | none => .pnone
  | some s => .pstate s

/-- The `states` setter: `None` and `State` instances are stored, anything
else raises `TypeError` before the assignment, leaving the policy
unchanged. -/
def Policy.setStates (p : Policy) (v : PyObj) : Policy × Option PyErr :=
  match v with
  | .pnone => ({ p with states := none }, none)
  | .pstate s => ({ p with states := some s }, none)
  | _ => (p, some (.typeError "Expecting states to be an instance of State."))

/-- The `actions` setter: only `Action` instances are accepted (in
particular `None` raises `TypeError`). -/
def Policy.setActions (p : Policy) (v : PyObj) : Policy × Option PyErr :=
  match v with
  | .paction a => ({ p with actions := a }, none)
  | _ => (p, some (.typeError "Expecting actions to be an instance of Action."))

/-- The `rate` setter: only ints are accepted. -/
def Policy.setRate (p : Policy) (v : PyObj) : Policy × Option PyErr :=
  match v with
  | .pint n => ({ p with rate := n }, none)
  | _ => (p, some (.typeError "Expecting the rate to be an integer."))

/-- Values that can be assigned to the `model` property. -/
inductive ModelArg where
  | mnone
  | mapprox (a : ApproxObj)
  | mmodel (m : ModelObj)
  | mother (tag : Nat)

/-- Modelled from the spec: the external `Approximator` constructor
(`pyrobolearn.approximators`, not part of the sources).  Per the spec an
approximator combines `State`, `Action` and `Model`: it stores the given
inputs, outputs and model, and dispatches `predict` to the underlying
model's `predict`. -/
def wrapApproximator (inputs : Option StateObj) (outputs : ActionObj) (m : ModelObj) : ApproxObj :=
  { inputs := inputs
    outputs := some outputs
    inner := some m
    predictFn := fun s tn _ _ => m.predictFn s tn
    is_recurrentR := m.is_recurrentR
    parametersR := m.parametersR
    named_parametersR := m.named_parametersR
    list_parametersR := m.list_parametersR
    hyperparametersR := m.hyperparametersR
    named_hyperparametersR := m.named_hyperparametersR
    list_hyperparametersR := m.list_hyperparametersR }

/-- The logic of the `model` setter: an object that is not `None` and not
an `Approximator` is wrapped into `Approximator(inputs=self.states,
outputs=self.actions, model=model)` when it is a `Model`; any other object
is stored unchanged (the `raise` branch is commented out in the source). -/
def modelStore (states : Option StateObj) (actions : ActionObj) : ModelArg → Option InnerModel
  | .mnone => none
  | .mapprox a => some (.approx a)
  | .mmodel m => some (.approx (wrapApproximator states actions m))
  | .mother t => some (.otherObj t)

/-- The `model` property setter on a policy. -/
def Policy.setModel (p : Policy) (v : ModelArg) : Policy :=
  { p with model := modelStore p.states p.actions v }

/-- The `preprocessors` / `postprocessors` arguments of `__init__`:
`None` becomes `[]`, a single (non-iterable) processor is wrapped into a
one-element list, a list is kept. -/
inductive ProcArg where
  | noneP
  | oneP (pr : Processor)
  | listP (ps : List Processor)

def procList : ProcArg → List Processor
  | .noneP => []
  | .oneP pr => [pr]
  | .listP ps => ps

/-- `Policy.__init__`: assigns `states`, `actions`, `model` (through the
setters, in this order, so the model wrapping sees the already-assigned
states and actions), `train_mode = False`, `rate`, `cnt = 0`,
`action_data = None`, then normalizes the processor arguments. -/
def mkPolicyCore (sts : Option StateObj) (actions : PyObj) (model : ModelArg) (rate : PyObj)
    (preprocessors postprocessors : ProcArg) : Except PyErr Policy :=
  match actions with
  | .paction acts =>
    match rate with
    | .pint r =>
      .ok { states := sts
            actions := acts
            model := modelStore sts acts model
            train_mode := false
            rate := r
            cnt := 0
            action_data := .pnone
            preprocessors := procList preprocessors
            postprocessors := procList postprocessors }
    | _ => .error (.typeError "Expecting the rate to be an integer.")
  | _ => .error (.typeError "Expecting actions to be an instance of Action.")

def mkPolicy (states actions : PyObj) (model : ModelArg) (rate : PyObj)
    (preprocessors postprocessors : ProcArg) : Except PyErr Policy :=
  match states with
  | .pnone => mkPolicyCore none actions model rate preprocessors postprocessors
  | .pstate s => mkPolicyCore (some s) actions model rate preprocessors postprocessors
  | _ => .error (.typeError "Expecting states to be an instance of State.")

/-- `Policy.is_recurrent`: the body is `raise self.model.is_recurrent()`.
With no model the attribute access raises `AttributeError`; with a model
the returned boolean is not an exception class, so `raise` itself raises
`TypeError`.  The method can never return a boolean. -/
def Policy.is_recurrent (p : Policy) : Except PyErr Bool :=
  match p.model with
  | none => .error (.attributeError "NoneType object has no attribute is_recurrent")
  | some (.otherObj _) => .error (.attributeError "object has no attribute is_recurrent")
  | some (.approx _) => .error (.typeError "exceptions must derive from BaseException")
  | some (.rawmodel _) => .error (.typeError "exceptions must derive from BaseException")

/-- `Policy.parameters`: `[]` when the model is `None`, otherwise the
model's result. -/
def Policy.parameters (p : Policy) : Except PyErr PyObj :=
  match p.model with
  | none => .ok (.plist [])
  | some (.approx a) => .ok a.parametersR
  | some (.rawmodel m) => .ok m.parametersR
  | some (.otherObj _) => .error (.attributeError "object has no attribute parameters")

/-- `Policy.named_parameters`. -/
def Policy.named_parameters (p : Policy) : Except PyErr PyObj :=
  match p.model with
  | none => .ok (.plist [])
  | some (.approx a) => .ok a.named_parametersR
  | some (.rawmodel m) => .ok m.named_parametersR
  | some (.otherObj _) => .error (.attributeError "object has no attribute named_parameters")

/-- `Policy.list_parameters`. -/
def Policy.list_parameters (p : Policy) : Except PyErr PyObj :=
  match p.model with
  | none => .ok (.plist [])
  | some (.approx a) => .ok a.list_parametersR
  | some (.rawmodel m) => .ok m.list_parametersR
  | some (.otherObj _) => .error (.attributeError "object has no attribute list_parameters")

/-- `Policy.hyperparameters`. -/
def Policy.hyperparameters (p : Policy) : Except PyErr PyObj :=
  match p.model with
  | none => .ok (.plist [])
  | some (.approx a) => .ok a.hyperparametersR
  | some (.rawmodel m) => .ok m.hyperparametersR
  | some (.otherObj _) => .error (.attributeError "object has no attribute hyperparameters")

/-- `Policy.named_hyperparameters`. -/
def Policy.named_hyperparameters (p : Policy) : Except PyErr PyObj :=
  match p.model with
  | none => .ok (.plist [])
  | some (.approx a) => .ok a.named_hyperparametersR
  | some (.rawmodel m) => .ok m.named_hyperparametersR
  | some (.otherObj _) => .error (.attributeError "object has no attribute named_hyperparameters")

/-- `Policy.list_hyperparameters`: returns `None` (not `[]`) when the
model is `None`. -/
def Policy.list_hyperparameters (p : Policy) : Except PyErr PyObj :=
  match p.model with
  | none => .ok .pnone
  | some (.approx a) => .ok a.list_hyperparametersR
  | some (.rawmodel m) => .ok m.list_hyperparametersR
  | some (.otherObj _) => .error (.attributeError "object has no attribute list_hyperparameters")

/-- `Policy.reset`: resets every preprocessor and postprocessor (the
`reset_processors` argument is never read), then calls
`self.model.reset()`, which raises `AttributeError` when the model is
`None`. -/
def Policy.reset (p : Policy) (reset_processors : Bool) : Policy × Option PyErr :=
  let p2 := { p with preprocessors := p.preprocessors.map Processor.resetP
                     postprocessors := p.postprocessors.map Processor.resetP }
  match p.model with
  | none => (p2, some (.attributeError "NoneType object has no attribute reset"))
  | some (.otherObj _) => (p2, some (.attributeError "object has no attribute reset"))
  | some (.approx _) => (p2, none)
  | some (.rawmodel _) => (p2, none)

/-- Modelled from the spec: the file system as seen through
`pickle.dump(self, open(filename, 'wb'))` and `pickle.load(open(filename,
'rb'))` — "pickling for persistence".  Pickle serializes the whole policy
object and deserializes it unchanged; a write truncates any previous file
of the same name. -/
def FileSys := List (String × Policy)

/-- `Policy.save`: pickle the policy into the named file. -/
def Policy.save (p : Policy) (filename : String) (fs : FileSys) : FileSys :=
  (filename, p) :: fs

/-- `Policy.load` (static): unpickle a policy from the named file. -/
def Policy.load (filename : String) (fs : FileSys) : Option Policy :=
  (List.find? (fun e => e.1 == filename) fs).map Prod.snd

/-- Count the `predictCall` events of a trace. -/
def isPredictCall : Event → Bool
  | .predictCall _ => true
  | _ => false

def countPredictCalls (evs : List Event) : Nat :=
  (evs.filter isPredictCall).length

/-- Count the `actionsCall` events (executions of `self.actions()`). -/
def isActionsCall : Event → Bool
  | .actionsCall => true
  | _ => false

def countActionsCalls (evs : List Event) : Nat :=
  (evs.filter isActionsCall).length

/-! Concrete objects used to exercise the definitions. -/

/-- A concrete external approximator whose `predict` always returns the
numpy array `[2, 7, 5]`. -/
def apxW : ApproxObj :=
  { inputs := none
    outputs := none
    inner := none
    predictFn := fun _ _ _ _ => .parr [2, 7, 5]
    is_recurrentR := false
    parametersR := .pnone
    named_parametersR := .pnone
    list_parametersR := .pnone
    hyperparametersR := .pnone
    named_hyperparametersR := .pnone
    list_hyperparametersR := .pnone }

/-- A concrete external learning model. -/
def mW : ModelObj :=
  { predictFn := fun _ _ => .pnone
    is_recurrentR := false
    parametersR := .pnone
    named_parametersR := .pnone
    list_parametersR := .pnone
    hyperparametersR := .pnone
    named_hyperparametersR := .pnone
    list_hyperparametersR := .pnone }

/-- A policy with one continuous action and the approximator `apxW`,
rate 1, fresh counter. -/
def pPredict : Policy :=
  { states := none
    actions := ⟨[{ discrete := false }]⟩
    model := some (.approx apxW)
    train_mode := false
    rate := 1
    cnt := 0
    action_data := .pnone
    preprocessors := []
    postprocessors := [] }

/-- A policy whose `rate` is the integer 0 (accepted by the rate setter). -/
def pRate0 : Policy :=
  { states := none
    actions := ⟨[]⟩
    model := none
    train_mode := false
    rate := 0
    cnt := 5
    action_data := .pnone
    preprocessors := []
    postprocessors := [] }

/-- A policy with no model, rate 1, fresh counter. -/
def pNoModel : Policy :=
  { states := none
    actions := ⟨[]⟩
    model := none
    train_mode := false
    rate := 1
    cnt := 0
    action_data := .pnone
    preprocessors := []
    postprocessors := [] }

/-- A policy sitting on a non-prediction tick (`cnt % rate = 1 % 2 ≠ 0`)
with stored action data. -/
def pSkip : Policy :=
  { states := none
    actions := ⟨[]⟩
    model := none
    train_mode := false
    rate := 2
    cnt := 1
    action_data := .parr [9]
    preprocessors := []
    postprocessors := [] }

/-- The policy produced by `mkPolicy` from a wrapped `mW`. -/
def polW : Policy :=
  { states := none
    actions := ⟨[]⟩
    model := some (.approx (wrapApproximator none ⟨[]⟩ mW))
    train_mode := false
    rate := 1
    cnt := 0
    action_data := .pnone
    preprocessors := []
    postprocessors := [] }

/-- A concrete discrete sub-action with empty slots. -/
def aDisc : SubAction := { discrete := true }

/-! ### Helper lemmas -/

theorem applyProcessorsAux_filter_nil (f : Event → Bool) (mk : Nat → PyObj → Event)
    (h : ∀ i v, f (mk i v) = false) :
    ∀ (ps : List Processor) (i : Nat) (v : PyObj),
      ((applyProcessorsAux mk i ps v).2).filter f = [] := by
  intro ps
  induction ps with
  | nil => intro i v; rfl
  | cons pr ps ih =>
    intro i v
    simp [applyProcessorsAux, List.filter_cons, h i v, ih]

theorem countPredictCalls_append (l1 l2 : List Event) :
    countPredictCalls (l1 ++ l2) = countPredictCalls l1 + countPredictCalls l2 := by
  simp [countPredictCalls, List.filter_append]

theorem countActionsCalls_append (l1 l2 : List Event) :
    countActionsCalls (l1 ++ l2) = countActionsCalls l1 + countActionsCalls l2 := by
  simp [countActionsCalls, List.filter_append]

theorem countPredictCalls_pre (ps : List Processor) (v : PyObj) :
    countPredictCalls (applyProcessors Event.preprocRun ps v).2 = 0 := by
  simp [countPredictCalls, applyProcessors,
    applyProcessorsAux_filter_nil isPredictCall Event.preprocRun (fun _ _ => rfl)]

theorem countPredictCalls_post (ps : List Processor) (v : PyObj) :
    countPredictCalls (applyProcessors Event.postprocRun ps v).2 = 0 := by
  simp [countPredictCalls, applyProcessors,
    applyProcessorsAux_filter_nil isPredictCall Event.postprocRun (fun _ _ => rfl)]

theorem countActionsCalls_pre (ps : List Processor) (v : PyObj) :
    countActionsCalls (applyProcessors Event.preprocRun ps v).2 = 0 := by
  simp [countActionsCalls, applyProcessors,
    applyProcessorsAux_filter_nil isActionsCall Event.preprocRun (fun _ _ => rfl)]

theorem countActionsCalls_post (ps : List Processor) (v : PyObj) :
    countActionsCalls (applyProcessors Event.postprocRun ps v).2 = 0 := by
  simp [countActionsCalls, applyProcessors,
    applyProcessorsAux_filter_nil isActionsCall Event.postprocRun (fun _ _ => rfl)]

theorem countPredictCalls_single_predict (s : PyObj) :
    countPredictCalls [Event.predictCall s] = 1 := rfl

theorem countPredictCalls_single_set (v : PyObj) :
    countPredictCalls [Event.setActionData v] = 0 := rfl

theorem countActionsCalls_single_predict (s : PyObj) :
    countActionsCalls [Event.predictCall s] = 0 := rfl

theorem countActionsCalls_single_set (v : PyObj) :
    countActionsCalls [Event.setActionData v] = 0 := rfl

theorem countActionsCalls_single_call : countActionsCalls [Event.actionsCall] = 1 := rfl

theorem countPredictCalls_single_actions : countPredictCalls [Event.actionsCall] = 0 := rfl

theorem countPredictCalls_actEvents (p : Policy) (state pred : PyObj) :
    countPredictCalls (actEvents p state pred) = 1 := by
  simp only [actEvents, countPredictCalls_append, countPredictCalls_pre, countPredictCalls_post,
    countPredictCalls_single_predict, countPredictCalls_single_set]

theorem countActionsCalls_actEvents (p : Policy) (state pred : PyObj) :
    countActionsCalls (actEvents p state pred) = 0 := by
  simp only [countActionsCalls_append, actEvents, countActionsCalls_pre, countActionsCalls_post,
    countActionsCalls_single_predict, countActionsCalls_single_set]

/-- On a prediction tick where the inner prediction succeeds, `act`
reaches the `actPredictBranch` translation of lines 418-499. -/
theorem act_eq_predictBranch (p : Policy) (state : PyObj) (det tn rl aa : Bool)
    (h0 : p.rate ≠ 0) (h1 : Int.fmod p.cnt p.rate = 0) :
    Policy.act p state det tn rl aa = actPredictBranch p state tn rl aa := by
  simp [Policy.act, h0, h1]

/-! ### Claim theorems -/

/-- C2 (code bug): `Policy.__call__` executes `return self.act(*args,
**kwargs)` although its signature declares neither `args` nor `kwargs`,
so every invocation raises `NameError` instead of performing `act`'s
computation; at the same inputs `act` itself succeeds and returns the
action data. -/
theorem call_is_nameError :
    (∀ (p : Policy) (state : PyObj) (det tn rl aa : Bool),
      Policy.call p state det tn rl aa = (p, [], .error (.nameError "name args is not defined")))
    ∧ (Policy.act pPredict .pnone true true false true).2.2 = .ok (.parr [2, 7, 5])
    ∧ (Policy.call pPredict .pnone true true false true).2.2 =
        .error (.nameError "name args is not defined") :=
  ⟨fun _ _ _ _ _ _ => rfl, rfl, rfl⟩

/-- C3: `save` pickles the whole policy into the named file and `load`
unpickles it back; the loaded policy equals the saved one in every field
(states, actions, model, rate, processors, counter, action data). -/
theorem save_load_roundtrip (p : Policy) (f : String) (fs : FileSys) :
    Policy.load f (Policy.save p f fs) = some p := by
  simp [Policy.load, Policy.save, List.find?]

/-- C7: the `model` setter (used both by `__init__` and by property
assignment) stores `None` and `Approximator` instances unchanged, and
wraps a `Model` instance into an `Approximator` whose inputs are the
policy's states, whose outputs are the policy's actions, and whose inner
model is the given object. -/
theorem model_setter_binding (sts : Option StateObj) (acts : ActionObj)
    (a : ApproxObj) (m : ModelObj) :
    modelStore sts acts .mnone = none
  ∧ modelStore sts acts (.mapprox a) = some (.approx a)
  ∧ (∃ A, modelStore sts acts (.mmodel m) = some (.approx A)
        ∧ A.inputs = sts ∧ A.outputs = some acts ∧ A.inner = some m)
  ∧ (∀ (p : Policy) (v : ModelArg),
      Policy.setModel p v = { p with model := modelStore p.states p.actions v })
  ∧ (∀ (sv av rv : PyObj) (marg : ModelArg) (pre post : ProcArg) (pol : Policy),
      mkPolicy sv av marg rv pre post = .ok pol →
      pol.model = modelStore pol.states pol.actions marg) := by
  refine ⟨rfl, rfl, ⟨wrapApproximator sts acts m, rfl, rfl, rfl, rfl⟩,
    fun p v => rfl, fun sv av rv marg pre post pol h => ?_⟩
  cases sv <;> cases av <;> cases rv <;>
    first
      | (injection h with h2; subst h2; rfl)
      | injection h

/-- C7 witness: constructing a policy from the raw model `mW` yields the
wrapped approximator. -/
theorem model_setter_binding_witness :
    mkPolicy .pnone (.paction ⟨[]⟩) (.mmodel mW) (.pint 1) .noneP .noneP = .ok polW
    ∧ polW.model = modelStore polW.states polW.actions (.mmodel mW) :=
  ⟨rfl, (model_setter_binding none ⟨[]⟩ apxW mW).2.2.2.2 .pnone (.paction ⟨[]⟩) (.pint 1)
    (.mmodel mW) .noneP .noneP polW rfl⟩

/-- C8: the `states`, `actions` and `rate` setters accept exactly the
documented values (None/State, Action, int), raise `TypeError` on
anything else while leaving the stored attribute unchanged, and on
success the getter returns exactly the value assigned. -/
theorem setter_validation (p : Policy) (s : StateObj) (a : ActionObj) (n : Int) (v : PyObj) :
    Policy.setStates p .pnone = ({ p with states := none }, none)
  ∧ Policy.setStates p (.pstate s) = ({ p with states := some s }, none)
  ∧ ((∀ s2, v ≠ .pstate s2) → v ≠ .pnone →
      Policy.setStates p v = (p, some (.typeError "Expecting states to be an instance of State.")))
  ∧ Policy.setActions p (.paction a) = ({ p with actions := a }, none)
  ∧ ((∀ a2, v ≠ .paction a2) →
      Policy.setActions p v = (p, some (.typeError "Expecting actions to be an instance of Action.")))
  ∧ Policy.setRate p (.pint n) = ({ p with rate := n }, none)
  ∧ ((∀ m, v ≠ .pint m) →
      Policy.setRate p v = (p, some (.typeError "Expecting the rate to be an integer.")))
  ∧ (Policy.setStates p (.pstate s)).1.statesObj = .pstate s
  ∧ (Policy.setActions p (.paction a)).1.actions = a
  ∧ (Policy.setRate p (.pint n)).1.rate = n := by
  refine ⟨rfl, rfl, fun hs hn => ?_, rfl, fun ha => ?_, rfl, fun hi => ?_, rfl, rfl, rfl⟩
  · cases v with
    | pnone => exact absurd rfl hn
    | pstate s2 => exact absurd rfl (hs s2)
    | _ => rfl
  · cases v with
    | paction a2 => exact absurd rfl (ha a2)
    | _ => rfl
  · cases v with
    | pint m => exact absurd rfl (hi m)
    | _ => rfl

/-- C8 witness: assigning the non-State object `pother 0` to `states`
raises `TypeError` and leaves the policy unchanged. -/
theorem setter_validation_witness :
    (∀ s2, PyObj.pother 0 ≠ .pstate s2)
    ∧ (PyObj.pother 0 ≠ .pnone)
    ∧ Policy.setStates pNoModel (.pother 0) =
        (pNoModel, some (.typeError "Expecting states to be an instance of State.")) := by
  refine ⟨fun s2 h => ?_, fun h => ?_, ?_⟩
  · exact nomatch h
  · exact nomatch h
  · exact (setter_validation pNoModel ⟨[]⟩ ⟨[]⟩ 0 (.pother 0)).2.2.1
      (fun s2 h => nomatch h) (fun h => nomatch h)

/-- C9: `is_recurrent` never returns normally — its body
`raise self.model.is_recurrent()` raises `AttributeError` when the model
is missing the attribute and `TypeError` (raising a non-exception) when
the inner call returns a boolean. -/
theorem is_recurrent_always_raises (p : Policy) :
    ∃ e, Policy.is_recurrent p = .error e := by
  rcases hp : p.model with _ | (a | m | t)
  · exact ⟨.attributeError "NoneType object has no attribute is_recurrent",
      by simp only [Policy.is_recurrent, hp]⟩
  · exact ⟨.typeError "exceptions must derive from BaseException",
      by simp only [Policy.is_recurrent, hp]⟩
  · exact ⟨.typeError "exceptions must derive from BaseException",
      by simp only [Policy.is_recurrent, hp]⟩
  · exact ⟨.attributeError "object has no attribute is_recurrent",
      by simp only [Policy.is_recurrent, hp]⟩

/-- C10: with no model, `parameters`, `named_parameters`,
`list_parameters`, `hyperparameters` and `named_hyperparameters` return
the empty list, `list_hyperparameters` returns `None`, and `reset`
raises `AttributeError` from `self.model.reset()` after resetting every
pre- and post-processor, ignoring its `reset_processors` argument. -/
theorem model_none_behavior (p : Policy) (h : p.model = none) (b b1 b2 : Bool) :
    Policy.parameters p = .ok (.plist [])
  ∧ Policy.named_parameters p = .ok (.plist [])
  ∧ Policy.list_parameters p = .ok (.plist [])
  ∧ Policy.hyperparameters p = .ok (.plist [])
  ∧ Policy.named_hyperparameters p = .ok (.plist [])
  ∧ Policy.list_hyperparameters p = .ok .pnone
  ∧ (Policy.reset p b).2 = some (.attributeError "NoneType object has no attribute reset")
  ∧ Policy.reset p b1 = Policy.reset p b2
  ∧ (Policy.reset p b).1.preprocessors = p.preprocessors.map Processor.resetP
  ∧ (Policy.reset p b).1.postprocessors = p.postprocessors.map Processor.resetP := by
  refine ⟨?_, ?_, ?_, ?_, ?_, ?_, ?_, ?_, ?_, ?_⟩
  all_goals simp only [Policy.parameters, Policy.named_parameters, Policy.list_parameters,
    Policy.hyperparameters, Policy.named_hyperparameters, Policy.list_hyperparameters,
    Policy.reset, h]

/-- A successful prediction tick increments the counter and produces the
pipeline trace followed by the optional action execution. -/
theorem actPredictBranch_ok_shape (p : Policy) (state : PyObj) (tn rl aa : Bool)
    (pol : Policy) (evs : List Event) (v : PyObj)
    (h : actPredictBranch p state tn rl aa = (pol, evs, .ok v)) :
    pol.cnt = p.cnt + 1
    ∧ ∃ pred, predictE p.model (processedState p state) = .ok pred
        ∧ evs = actEvents p state pred ++ (if aa then [Event.actionsCall] else []) := by
  unfold actPredictBranch at h
  split at h
  · simp at h
  · rename_i pred heq
    split at h
    · simp at h
    · rename_i subs2 ads2 heq2
      simp only [Prod.mk.injEq] at h
      obtain ⟨h1, h2, h3⟩ := h
      subst h1
      subst h2
      exact ⟨rfl, pred, heq, rfl⟩

/-- With `apply_action = False`, a prediction tick never executes the
actions, whether it succeeds or raises. -/
theorem actPredictBranch_trace_noapply (p : Policy) (state : PyObj) (tn rl : Bool) :
    countActionsCalls (actPredictBranch p state tn rl false).2.1 = 0 := by
  unfold actPredictBranch
  split
  · exact countActionsCalls_pre _ _
  · split
    · exact countActionsCalls_actEvents _ _ _
    · simp [countActionsCalls_append, countActionsCalls_actEvents]

/-- C1: on a prediction tick (`rate` non-zero and `cnt % rate == 0`, so
the Python modulus is defined and zero) on which the inner model's
`predict` succeeds, `act` emits exactly the pipeline trace: every
preprocessor in list order applied starting from the resolved state
(`self.states` for a `None` argument, a `State` replaced by its
`merged_data`, unwrapped when that list has exactly one element), then
exactly one `predict` call on the fully preprocessed state, then every
postprocessor in list order applied to the prediction, whose result is
assigned to the action data; nothing follows but the optional action
execution. -/
theorem act_prediction_pipeline (p : Policy) (state : PyObj) (det tn rl aa : Bool)
    (h0 : p.rate ≠ 0) (h1 : Int.fmod p.cnt p.rate = 0)
    (pred : PyObj) (h2 : predictE p.model (processedState p state) = .ok pred) :
    ∃ tail,
      (Policy.act p state det tn rl aa).2.1 =
        (applyProcessors Event.preprocRun p.preprocessors (resolvedState p state)).2
          ++ [Event.predictCall (processedState p state)]
          ++ (applyProcessors Event.postprocRun p.postprocessors pred).2
          ++ [Event.setActionData (applyProcessors Event.postprocRun p.postprocessors pred).1]
          ++ tail
      ∧ (∀ e ∈ tail, e = Event.actionsCall)
      ∧ countPredictCalls (Policy.act p state det tn rl aa).2.1 = 1 := by
  rw [act_eq_predictBranch p state det tn rl aa h0 h1]
  unfold actPredictBranch
  rw [h2]
  rcases hd : dispatchLoop rl tn p.actions.subs
      (listify (applyProcessors Event.postprocRun p.postprocessors pred).1)
    with ⟨subs2, ads2, errOpt⟩
  cases errOpt with
  | some e =>
    refine ⟨[], ?_, fun x hx => absurd hx (List.not_mem_nil x), ?_⟩
    · simp only [hd]
      simp [actEvents]
    · simp only [hd]
      simpa using countPredictCalls_actEvents p state pred
  | none =>
    refine ⟨if aa then [Event.actionsCall] else [], ?_, ?_, ?_⟩
    · simp only [hd]
      simp [actEvents]
    · cases aa <;> simp
    · simp only [hd]
      cases aa <;>
        simp [countPredictCalls_append, countPredictCalls_actEvents,
          countPredictCalls_single_actions]

/-- C4: per zipped (sub-action, data) pair, the dispatch step of `act`
assigns a discrete action the one-element argmax array (numpy) or the
`dim 0` argmax tensor (torch) — replacing the logits in the returned data
when `return_logits` is false — assigns a continuous action its data
directly (`data` for arrays, `torch_data` for tensors, converting the
returned entry to numpy when requested), and raises `TypeError` on data
of any other type. -/
theorem dispatch_discrete_continuous (a : SubAction) (xs : List Int) (rl tn : Bool) (d : PyObj) :
    (a.discrete = true → xs ≠ [] →
      dispatchOne rl tn a (.parr xs) =
        .ok ({ a with dataSlot := some [(argmaxIdx xs : Int)] },
             if rl then .parr xs else .parr [(argmaxIdx xs : Int)]))
  ∧ (a.discrete = true → xs ≠ [] →
      dispatchOne rl tn a (.ptensor xs) =
        .ok ({ a with torchSlot := some [(argmaxIdx xs : Int)] },
             if rl then convertToNumpy (.ptensor xs) tn
             else convertToNumpy (.ptensor [(argmaxIdx xs : Int)]) tn))
  ∧ (a.discrete = false →
      dispatchOne rl tn a (.parr xs) = .ok ({ a with dataSlot := some xs }, .parr xs))
  ∧ (a.discrete = false →
      dispatchOne rl tn a (.ptensor xs) =
        .ok ({ a with torchSlot := some xs }, convertToNumpy (.ptensor xs) tn))
  ∧ ((∀ ys, d ≠ .parr ys) → (∀ ys, d ≠ .ptensor ys) →
      ∃ msg, dispatchOne rl tn a d = .error (.typeError msg)) := by
  refine ⟨fun ha hxs => ?_, fun ha hxs => ?_, fun ha => ?_, fun ha => ?_, fun harr htens => ?_⟩
  · simp [dispatchOne, ha, hxs]
  · simp [dispatchOne, ha, hxs]
  · simp [dispatchOne, ha]
  · simp [dispatchOne, ha]
  · cases d with
    | parr ys => exact absurd rfl (harr ys)
    | ptensor ys => exact absurd rfl (htens ys)
    | _ =>
      cases ha : a.discrete with
      | true =>
        exact ⟨"Expecting the data action to be a numpy array or torch.Tensor",
          by simp [dispatchOne, ha]⟩
      | false =>
        exact ⟨"Expecting data to be a numpy array or torch.Tensor",
          by simp [dispatchOne, ha]⟩

/-- C5 counterexample: the rate setter accepts the integer 0, and then
`cnt % rate` raises `ZeroDivisionError`, so this call to `act` leaves the
counter unchanged instead of incrementing it. -/
theorem act_cnt_counterexample :
    (Policy.act pRate0 .pnone true true false true).2.2 = .error .zeroDivisionError
    ∧ (Policy.act pRate0 .pnone true true false true).1.cnt ≠ pRate0.cnt + 1 :=
  ⟨rfl, by decide⟩

/-- C5 (amended): on every call to `act` that returns without raising,
the counter increases by exactly 1; and on a call where the modulus is
defined and non-zero (`rate ≠ 0`, `cnt % rate ≠ 0`) the only effect is
the counter increment and the optional action execution: the stored
action data is unchanged, no processor runs, `predict` is not invoked,
and the previously stored action data is returned. -/
theorem act_rate_gating (p : Policy) (state : PyObj) (det tn rl aa : Bool) :
    (∀ (pol : Policy) (evs : List Event) (v : PyObj),
      Policy.act p state det tn rl aa = (pol, evs, .ok v) → pol.cnt = p.cnt + 1)
    ∧ (p.rate ≠ 0 → Int.fmod p.cnt p.rate ≠ 0 →
        Policy.act p state det tn rl aa =
          ({ p with cnt := p.cnt + 1 },
           (if aa then [Event.actionsCall] else []),
           .ok p.action_data)) := by
  constructor
  · intro pol evs v h
    by_cases hr : p.rate = 0
    · simp [Policy.act, hr] at h
    · by_cases hm : Int.fmod p.cnt p.rate = 0
      · rw [act_eq_predictBranch p state det tn rl aa hr hm] at h
        exact (actPredictBranch_ok_shape p state tn rl aa pol evs v h).1
      · simp only [Policy.act, hr, hm, if_false, if_neg] at h
        simp only [Prod.mk.injEq] at h
        obtain ⟨h1, -, -⟩ := h
        subst h1
        rfl
  · intro hr hm
    simp [Policy.act, hr, hm]

/-- C5 witness: a policy on a non-prediction tick (`rate = 2`, `cnt = 1`)
returns its stored action data and only bumps the counter. -/
theorem act_rate_gating_witness :
    pSkip.rate ≠ 0
    ∧ Int.fmod pSkip.cnt pSkip.rate ≠ 0
    ∧ Policy.act pSkip .pnone true true false true =
        ({ pSkip with cnt := pSkip.cnt + 1 }, [Event.actionsCall], .ok pSkip.action_data) :=
  ⟨by decide, by decide,
    (act_rate_gating pSkip .pnone true true false true).2 (by decide) (by decide)⟩

/-- C6 counterexample: with `apply_action=True` but a policy whose
prediction raises (model `None`), `act` propagates the exception before
reaching `self.actions()`, so the actions object is not called at all. -/
theorem act_apply_action_counterexample :
    (Policy.act pNoModel .pnone true true false true).2.2 =
      .error (.attributeError "NoneType object has no attribute predict")
    ∧ countActionsCalls (Policy.act pNoModel .pnone true true false true).2.1 ≠ 1 :=
  ⟨rfl, by decide⟩

/-- C6 (amended): on every call to `act` that returns without raising
with `apply_action=True`, the actions object is executed exactly once —
including on non-prediction ticks — and with `apply_action=False` it is
never executed, raising or not. -/
theorem act_apply_action_calls (p : Policy) (state : PyObj) (det tn rl aa : Bool) :
    (∀ (pol : Policy) (evs : List Event) (v : PyObj),
      Policy.act p state det tn rl aa = (pol, evs, .ok v) → aa = true →
        countActionsCalls evs = 1)
    ∧ (aa = false → countActionsCalls (Policy.act p state det tn rl aa).2.1 = 0) := by
  constructor
  · intro pol evs v h haa
    subst haa
    by_cases hr : p.rate = 0
    · simp [Policy.act, hr] at h
    · by_cases hm : Int.fmod p.cnt p.rate = 0
      · rw [act_eq_predictBranch p state det tn rl true hr hm] at h
        obtain ⟨-, pred, -, hevs⟩ := actPredictBranch_ok_shape p state tn rl true pol evs v h
        subst hevs
        simp [countActionsCalls_append, countActionsCalls_actEvents,
          countActionsCalls_single_call]
      · simp only [Policy.act, hr, hm, if_false, if_neg] at h
        simp only [Prod.mk.injEq] at h
        obtain ⟨-, h2, -⟩ := h
        subst h2
        rfl
  · intro haa
    subst haa
    by_cases hr : p.rate = 0
    · simp [Policy.act, hr, countActionsCalls]
    · by_cases hm : Int.fmod p.cnt p.rate = 0
      · rw [act_eq_predictBranch p state det tn rl false hr hm]
        exact actPredictBranch_trace_noapply p state tn rl
      · simp [Policy.act, hr, hm, countActionsCalls]

/-- C6 witness: a successful prediction tick with `apply_action=True`
executes the actions exactly once. -/
theorem act_apply_action_calls_witness :
    Policy.act pPredict .pnone true true false true =
      ((Policy.act pPredict .pnone true true false true).1,
       (Policy.act pPredict .pnone true true false true).2.1,
       .ok (.parr [2, 7, 5]))
    ∧ countActionsCalls (Policy.act pPredict .pnone true true false true).2.1 = 1 :=
  ⟨rfl,
    (act_apply_action_calls pPredict .pnone true true false true).1
      (Policy.act pPredict .pnone true true false true).1
      (Policy.act pPredict .pnone true true false true).2.1
      (.parr [2, 7, 5]) rfl rfl⟩

/-- C1 witness: a concrete prediction tick of `pPredict`. -/
theorem act_prediction_pipeline_witness :
    pPredict.rate ≠ 0
    ∧ Int.fmod pPredict.cnt pPredict.rate = 0
    ∧ predictE pPredict.model (processedState pPredict .pnone) = .ok (.parr [2, 7, 5])
    ∧ ∃ tail,
        (Policy.act pPredict .pnone true true false true).2.1 =
          (applyProcessors Event.preprocRun pPredict.preprocessors
              (resolvedState pPredict .pnone)).2
            ++ [Event.predictCall (processedState pPredict .pnone)]
            ++ (applyProcessors Event.postprocRun pPredict.postprocessors (.parr [2, 7, 5])).2
            ++ [Event.setActionData
                  (applyProcessors Event.postprocRun pPredict.postprocessors (.parr [2, 7, 5])).1]
            ++ tail
        ∧ (∀ e ∈ tail, e = Event.actionsCall)
        ∧ countPredictCalls (Policy.act pPredict .pnone true true false true).2.1 = 1 :=
  ⟨by decide, by decide, rfl,
    act_prediction_pipeline pPredict .pnone true true false true (by decide) (by decide)
      (.parr [2, 7, 5]) rfl⟩

/-- C4 witness: a discrete sub-action with numpy data `[1, 5, 3]` and
`return_logits=False` gets the one-element argmax array `[1]`. -/
theorem dispatch_discrete_continuous_witness :
    aDisc.discrete = true
    ∧ ([1, 5, 3] : List Int) ≠ []
    ∧ dispatchOne false true aDisc (.parr [1, 5, 3]) =
        .ok ({ aDisc with dataSlot := some [1] }, .parr [1]) :=
  ⟨rfl, by decide,
    (dispatch_discrete_continuous aDisc [1, 5, 3] false true .pnone).1 rfl (by decide)⟩

/-- C10 witness: the model-less policy `pNoModel`. -/
theorem model_none_behavior_witness :
    pNoModel.model = none
    ∧ Policy.parameters pNoModel = .ok (.plist [])
    ∧ Policy.list_hyperparameters pNoModel = .ok .pnone
    ∧ (Policy.reset pNoModel true).2 =
        some (.attributeError "NoneType object has no attribute reset") :=
  ⟨rfl, (model_none_behavior pNoModel rfl true true false).1,
    (model_none_behavior pNoModel rfl true true false).2.2.2.2.2.1,
    (model_none_behavior pNoModel rfl true true false).2.2.2.2.2.2.1⟩

end PRL


